import Mathlib

set_option maxRecDepth 4000

namespace PynwbMap

/-- Numpy scalar types reachable through the values of `ObjectMapper.__dtypes`
(src/pynwb/form/build/map.py, lines 346-370). -/
inductive NpType where
  | float32
  | float64
  | int8
  | int16
  | int32
  | int64
  | uint8
  | uint16
  | uint32
  | uint64
  | boolT
  deriving DecidableEq, Repr

/-- np.dtype(t).itemsize for each modelled numpy scalar type. -/
def NpType.itemsize : NpType → Nat
  | .float32 => 4
  | .float64 => 8
  | .int8 => 1
  | .int16 => 2
  | .int32 => 4
  | .int64 => 8
  | .uint8 => 1
  | .uint16 => 2
  | .uint32 => 4
  | .uint64 => 8
  | .boolT => 1

/-- np.dtype(t).name for each modelled numpy scalar type. -/
def NpType.npName : NpType → String
  | .float32 => "float32"
  | .float64 => "float64"
  | .int8 => "int8"
  | .int16 => "int16"
  | .int32 => "int32"
  | .int64 => "int64"
  | .uint8 => "uint8"
  | .uint16 => "uint16"
  | .uint32 => "uint32"
  | .uint64 => "uint64"
  | .boolT => "bool"

/-- ObjectMapper.__resolve_dtype (map.py 372-391): if the given dtype's itemsize is
no larger than the specified one, the specified dtype is returned; otherwise the
two dtype names must share their first three letters (same family) and the given
(wider) dtype is returned; otherwise a ValueError is raised. -/
def resolve_dtype (g s : NpType) : Except String NpType :=
  if g.itemsize ≤ s.itemsize then
    Except.ok s
  else
    if g.npName.take 3 ≠ s.npName.take 3 then
      Except.error ("expected " ++ s.npName ++ ", received " ++ g.npName ++
        " - must supply " ++ s.npName ++
        (if s.itemsize < 8 then " or higher precision" else ""))
    else
      Except.ok g

/-- Python values flowing through ObjectMapper.convert_dtype. Numeric payloads are
carried as Int: `pfloat n` models the Python float with integral value n (the
only floats the analysed claims touch), `npScalar t v` a numpy scalar of dtype t,
`ndarray t d` a numpy array with element dtype t, `strArray u d` the result of
ndarray.astype on U (u = true) or S (u = false), `dataWrap` a DataIO wrapper and
`container i` a Container with identity i. -/
inductive PyVal where
  | pnone
  | pint (n : Int)
  | pfloat (n : Int)
  | pbool (b : Bool)
  | pstr (s : String)
  | pbytes (s : String)
  | npScalar (t : NpType) (v : Int)
  | ndarray (t : NpType) (data : List Int)
  | strArray (utf : Bool) (data : List String)
  | plist (xs : List PyVal)
  | ptuple (xs : List PyVal)
  | dataWrap (inner : PyVal)
  | container (id : Nat)

/-- A spec-declared dtype: either a primitive named by a string of the closed
alphabet, or a RefSpec with a target type and a reftype string. (Compound list
dtypes are not needed by the analysed claims.) -/
inductive SpecDtype where
  | prim (s : String)
  | refSpec (targetType : String) (reftype : String)
  deriving DecidableEq, Repr

/-- The value side of an entry of `ObjectMapper.__dtypes`: a numpy scalar type, or
one of the helper converters _unicode / _ascii (map.py 317-338). -/
inductive DtFn where
  | np (t : NpType)
  | uni
  | asc
  deriving DecidableEq, Repr

/-- ObjectMapper.__dtypes (map.py 346-370) as an association list. The duplicated
"text" key of the Python dict literal collapses to a single entry, as in Python. -/
def dtypesTable : List (String × DtFn) :=
  [("float", .np .float32), ("float32", .np .float32),
   ("double", .np .float64), ("float64", .np .float64),
   ("long", .np .int64), ("int64", .np .int64), ("uint64", .np .uint64),
   ("int", .np .int32), ("int32", .np .int32), ("int16", .np .int16),
   ("int8", .np .int8), ("bool", .np .boolT),
   ("text", .uni), ("utf", .uni), ("utf8", .uni), ("utf-8", .uni),
   ("ascii", .asc), ("str", .asc), ("isodatetime", .asc),
   ("uint32", .np .uint32), ("uint16", .np .uint16), ("uint8", .np .uint8)]

/-- The keys of `ObjectMapper.__dtypes`: the closed alphabet of recognized
primitive dtype names. -/
def dtypeKeys : List String := dtypesTable.map Prod.fst

/-- Wrap an integer into an unsigned machine integer of the given bit width,
as a numpy cast does. -/
def wrapUnsigned (bits : Nat) (v : Int) : Int := v % ((2 : Int) ^ bits)

/-- Wrap an integer into a signed machine integer of the given bit width,
as a numpy cast does. -/
def wrapSigned (bits : Nat) (v : Int) : Int :=
  let m := v % ((2 : Int) ^ bits)
  if m < (2 : Int) ^ (bits - 1) then m else m - (2 : Int) ^ bits

/-- Casting an integral numeric payload to a numpy scalar type (the effect of
calling dtype_func(value) in convert_dtype). Float payloads stay exact because
the model restricts floats to integral values. -/
def npCast (t : NpType) (v : Int) : Int :=
  match t with
  | .int8 => wrapSigned 8 v
  | .int16 => wrapSigned 16 v
  | .int32 => wrapSigned 32 v
  | .int64 => wrapSigned 64 v
  | .uint8 => wrapUnsigned 8 v
  | .uint16 => wrapUnsigned 16 v
  | .uint32 => wrapUnsigned 32 v
  | .uint64 => wrapUnsigned 64 v
  | .float32 => v
  | .float64 => v
  | .boolT => if v = 0 then 0 else 1

/-- np.dtype(type(value)) for a scalar value, as used by the scalar branch of
convert_dtype: a Python int has dtype int64 (64-bit platform), a Python float
float64, a Python bool bool, and a numpy scalar its own dtype. Other values make
np.dtype raise, modelled as an error. -/
def pythonDtypeOf : PyVal → Except String NpType
  | .pint _ => Except.ok .int64
  | .pfloat _ => Except.ok .float64
  | .pbool _ => Except.ok .boolT
  | .npScalar t _ => Except.ok t
  | _ => Except.error "data type not understood"

/-- The integral numeric payload of a scalar value. -/
def scalarPayload : PyVal → Except String Int
  | .pint n => Except.ok n
  | .pfloat n => Except.ok n
  | .pbool b => Except.ok (if b then 1 else 0)
  | .npScalar _ v => Except.ok v
  | _ => Except.error "cannot extract numeric payload"

/-- The helper _unicode (map.py 317-326): a str passes through, bytes are decoded
(payload kept), anything else raises ValueError. -/
def toUnicodeFn : PyVal → Except String PyVal
  | .pstr s => Except.ok (.pstr s)
  | .pbytes s => Except.ok (.pstr s)
  | _ => Except.error "Expected unicode or ascii string"

/-- The helper _ascii (map.py 329-338): a str is encoded (payload kept), bytes pass
through, anything else raises ValueError. -/
def toAsciiFn : PyVal → Except String PyVal
  | .pstr s => Except.ok (.pbytes s)
  | .pbytes s => Except.ok (.pbytes s)
  | _ => Except.error "Expected unicode or ascii string"

/-- The dtype reported by convert_dtype: absent (None), a string such as "utf8",
"ascii", a spec dtype name or a reftype, or a numpy scalar type. -/
inductive DtypeOut where
  | dnone
  | dstr (s : String)
  | dnp (t : NpType)
  deriving DecidableEq, Repr

mutual

/-- ObjectMapper.convert_dtype (map.py 393-449). A None value reports the spec
dtype (the reftype for a RefSpec). A DataIO wrapper is returned unchanged with
the dtype of its inner data. A missing or "numeric" spec dtype passes the value
through. An unrecognized spec dtype (including a RefSpec dtype, whose membership
test against the string-keyed __dtypes dict cannot succeed) raises. Otherwise
ndarrays are cast elementwise, lists and tuples recurse elementwise taking the
reported dtype from the last element, and scalars are string-coerced or resolved
and cast. -/
def convert_dtype (specDtype : Option SpecDtype) (value : PyVal) :
    Except String (PyVal × DtypeOut) :=
  match value with
  | .pnone =>
    match specDtype with
    | some (.refSpec _ rt) => Except.ok (.pnone, .dstr rt)
    | some (.prim s) => Except.ok (.pnone, .dstr s)
    | none => Except.ok (.pnone, .dnone)
  | .dataWrap inner => do
    let r ← convert_dtype specDtype inner
    Except.ok (.dataWrap inner, r.2)
  | v =>
    match specDtype with
    | none => Except.ok (v, .dnone)
    | some (.refSpec _ _) => Except.error "unrecognized dtype: RefSpec -- cannot convert value"
    | some (.prim ds) =>
      if ds = "numeric" then Except.ok (v, .dnone)
      else
        match dtypesTable.lookup ds with
        | none => Except.error ("unrecognized dtype: " ++ ds ++ " -- cannot convert value")
        | some specFn =>
          match v with
          | .ndarray t data =>
            match specFn with
            | .uni => Except.ok (.strArray true (data.map toString), .dstr "utf8")
            | .asc => Except.ok (.strArray false (data.map toString), .dstr "ascii")
            | .np st => do
              let rt ← resolve_dtype t st
              Except.ok (.ndarray rt (data.map (npCast rt)), .dnp rt)
          | .plist xs => do
            let r ← convert_list specDtype xs
            match r.2 with
            | none => Except.error "local variable tmp_dtype referenced before assignment"
            | some d => Except.ok (.plist r.1, d)
          | .ptuple xs => do
            let r ← convert_list specDtype xs
            match r.2 with
            | none => Except.error "local variable tmp_dtype referenced before assignment"
            | some d => Except.ok (.ptuple r.1, d)
          | sv =>
            match specFn with
            | .uni => do
              let r ← toUnicodeFn sv
              Except.ok (r, .dstr "utf8")
            | .asc => do
              let r ← toAsciiFn sv
              Except.ok (r, .dstr "ascii")
            | .np st => do
              let g ← pythonDtypeOf sv
              let rt ← resolve_dtype g st
              let p ← scalarPayload sv
              Except.ok (.npScalar rt (npCast rt p), .dnp rt)

/-- The elementwise loop of the sequence branch of convert_dtype (map.py 432-438):
each element is converted and the reported dtype of the last processed element is
threaded through; the second component is none exactly when no element was
processed, modelling the local variable tmp_dtype staying unassigned. -/
def convert_list (specDtype : Option SpecDtype) :
    List PyVal → Except String (List PyVal × Option DtypeOut)
  | [] => Except.ok ([], none)
  | x :: rest => do
    let r ← convert_dtype specDtype x
    let rs ← convert_list specDtype rest
    Except.ok (r.1 :: rs.1, some (rs.2.getD r.2))

end

/-- True exactly when an Except result is an error. -/
def isErr {ε α : Type} : Except ε α → Bool
  | .error _ => true
  | .ok _ => false

/-- The inner for-loop of ObjectMapper.__is_reftype (map.py 798-816): scanning the
elements of the current sequence, a Python-numeric element (int, float, complex,
bool; numpy float scalars subclass float) stops the scan with nothing found,
while a non-Container non-string sequence element of positive length reports a
find (which makes __is_reftype return False); all other elements are skipped. -/
def scanForNestedSeq : List PyVal → Bool
  | [] => false
  | t :: rest =>
    match t with
    | .pint _ => false
    | .pfloat _ => false
    | .pbool _ => false
    | .npScalar nt _ =>
      match nt with
      | .float32 => false
      | .float64 => false
      | _ => scanForNestedSeq rest
    | .plist ys => if ys.length > 0 then true else scanForNestedSeq rest
    | .ptuple ys => if ys.length > 0 then true else scanForNestedSeq rest
    | .ndarray _ d => if d.length > 0 then true else scanForNestedSeq rest
    | .strArray _ d => if d.length > 0 then true else scanForNestedSeq rest
    | _ => scanForNestedSeq rest

/-- ObjectMapper.__is_reftype (map.py 798-816): descend into the first element of
each nested sequence (unless the scan finds an early nested sequence, in which
case the result is False) until a non-sequence is reached; the result is True
exactly when that final value is a Container. Indexing the first element of an
empty sequence raises IndexError. -/
def is_reftype : PyVal → Except String Bool
  | .plist [] => Except.error "IndexError: list index out of range"
  | .plist (h :: rest) =>
    if scanForNestedSeq (h :: rest) then Except.ok false else is_reftype h
  | .ptuple [] => Except.error "IndexError: tuple index out of range"
  | .ptuple (h :: rest) =>
    if scanForNestedSeq (h :: rest) then Except.ok false else is_reftype h
  | .ndarray _ [] => Except.error "IndexError: index out of range"
  | .ndarray _ (_ :: _) => Except.ok false
  | .strArray _ [] => Except.error "IndexError: index out of range"
  | .strArray _ (_ :: _) => Except.ok false
  | .container _ => Except.ok true
  | _ => Except.ok false

/-- An AttributeSpec as consumed by ObjectMapper.__add_attributes: its name, dtype,
required flag, fixed spec value and default value. -/
structure AttrSpecL where
  name : String
  dtype : Option SpecDtype
  required : Bool
  value : Option PyVal
  default_value : Option PyVal

/-- A value stored in a builder's attribute map: either a converted plain value or
a ReferenceBuilder whose target is the builder of the given container identity. -/
inductive AttrStored where
  | conv (v : PyVal)
  | refBuilder (targetContainer : Nat)

/-- Modelled from the spec: Builder.set_attribute belongs to the builder layer
(src/pynwb/form/build/builders.py is not under src/). Per the spec's data model a
builder's attributes form a Map from string to value, so set_attribute overwrites
the entry for the given name, keeping its position, and otherwise appends. -/
def setAttribute (attrs : List (String × AttrStored)) (k : String) (v : AttrStored) :
    List (String × AttrStored) :=
  match attrs with
  | [] => [(k, v)]
  | (k0, v0) :: rest => if k0 = k then (k, v) :: rest else (k0, v0) :: setAttribute rest k v

/-- The value resolution at the head of the __add_attributes loop body (map.py
851-857): a literal spec value wins, else the container attribute value fetched
by get_attr_value, else the spec's default_value. The get_attr_value lookup
(spec-to-attribute mapping, override handlers, getattr on the container and
__convert_value) is abstracted as the function getAttr from the spec's name. -/
def resolveAttrValue (spec : AttrSpecL) (getAttr : String → Option PyVal) : Option PyVal :=
  match spec.value with
  | some v => some v
  | none =>
    match getAttr spec.name with
    | some v => some v
    | none => spec.default_value

/-- One iteration of the ObjectMapper.__add_attributes loop (map.py 850-885), acting
on the accumulated (attributes, warnings) pair. For a RefSpec dtype the resolved
value must satisfy __is_reftype, else a ValueError is raised (with one message for
an absent value and another for a non-Container value); a Container value is built
and wrapped in a ReferenceBuilder (the builder of container i is modelled as i;
a non-Container reftype value makes the nested manager.build call fail). For other
dtypes a present value is converted with convert_dtype; an absent value is skipped,
with a MissingRequiredWarning recorded when the spec is required. -/
def addAttribute (builderName : String) (st : List (String × AttrStored) × List String)
    (spec : AttrSpecL) (getAttr : String → Option PyVal) :
    Except String (List (String × AttrStored) × List String) :=
  let attr_value := resolveAttrValue spec getAttr
  match spec.dtype with
  | some (.refSpec tgt _) => do
    let r ← is_reftype (attr_value.getD .pnone)
    if r = false then
      match attr_value with
      | none => Except.error ("object of data_type " ++ tgt ++ " not found on container")
      | some _ => Except.error ("invalid type for reference " ++ spec.name ++ " - must be Container")
    else
      match attr_value with
      | some (.container i) => Except.ok (setAttribute st.1 spec.name (.refBuilder i), st.2)
      | _ => Except.error "incorrect type for container argument of BuildManager.build"
  | _ =>
    match attr_value with
    | none =>
      if spec.required then
        Except.ok (st.1, st.2 ++
          ["MissingRequiredWarning: attribute " ++ spec.name ++ " for " ++ builderName])
      else
        Except.ok (st.1, st.2)
    | some v => do
      let r ← convert_dtype spec.dtype v
      Except.ok (setAttribute st.1 spec.name (.conv r.1), st.2)

/-- ObjectMapper.__add_attributes (map.py 850-885) over a list of attribute specs,
starting from an empty attribute map and no warnings; returns the builder's
attribute entries and the warnings emitted. -/
def add_attributes (builderName : String) (specs : List AttrSpecL)
    (getAttr : String → Option PyVal) :
    Except String (List (String × AttrStored) × List String) :=
  specs.foldlM (fun st spec => addAttribute builderName st spec getAttr) ([], [])

/-- The sub-spec kinds that reach ObjectMapper.__add_containers: a LinkSpec, a
DatasetSpec (carrying a data type) or a GroupSpec (carrying a data type), each
with its declared name. -/
inductive ChildSpec where
  | linkS (name : Option String) (targetType : String)
  | datasetS (name : Option String) (dtype : Option SpecDtype)
  | groupS (name : Option String)
  deriving DecidableEq, Repr

/-- The declared name of a child sub-spec. -/
def ChildSpec.sname : ChildSpec → Option String
  | .linkS n _ => n
  | .datasetS n _ => n
  | .groupS n => n

/-- Whether the sub-spec is a LinkSpec. -/
def ChildSpec.isLink : ChildSpec → Bool
  | .linkS _ _ => true
  | _ => false

/-- Whether the sub-spec is a DatasetSpec. -/
def ChildSpec.isDataset : ChildSpec → Bool
  | .datasetS _ _ => true
  | _ => false

/-- The fields of a Container consulted by __add_containers: its identity, name,
parent identity (None when orphaned; `parent is parent_container` is identity
comparison), modified flag and container_source. -/
structure ChildContainer where
  id : Nat
  name : String
  parentId : Option Nat
  modified : Bool
  container_source : Option String
  deriving DecidableEq, Repr

/-- How __add_containers attaches the child's builder to the parent builder:
as a LinkBuilder under the spec's name, as an embedded dataset, as an embedded
group, or not at all (the unmodified-with-matching-source-and-parent case falls
through both attachment branches). The child's builder produced by
build_manager.build(value) is identified by the child container's identity. -/
inductive AttachOutcome where
  | linkB (name : Option String) (target : Nat)
  | datasetB (target : Nat)
  | groupB (target : Nat)
  | skippedB
  deriving DecidableEq, Repr

/-- Whether the outcome embeds the child directly (set_dataset or set_group). -/
def AttachOutcome.isEmbedded : AttachOutcome → Bool
  | .datasetB _ => true
  | .groupB _ => true
  | _ => false

/-- Python truthiness of a container_source value: None and the empty string are
falsy. -/
def truthySource : Option String → Bool
  | none => false
  | some s => s ≠ ""

/-- ObjectMapper.__add_containers (map.py 973-1001) for a Container value: an
OrphanContainerWarning is recorded when the value has no parent. A modified value
is built and attached as a LinkBuilder named spec.name when the spec is a LinkSpec
or the value's parent is not the enclosing container, as a dataset when the spec
is a DatasetSpec (its dtype fix-up is not part of the outcome) and as a group
otherwise. An unmodified value with a truthy container_source is attached as a
LinkBuilder when its container_source differs from the enclosing container's or
its parent is not the enclosing container, and is otherwise not attached at all.
An unmodified value without container_source raises a ValueError. The result is
the attachment outcome paired with the orphan-warning flag. -/
def add_containers (spec : ChildSpec) (value parentContainer : ChildContainer) :
    Except String (AttachOutcome × Bool) :=
  let orphanWarn := value.parentId.isNone
  if value.modified then
    if spec.isLink ∨ value.parentId ≠ some parentContainer.id then
      Except.ok (.linkB spec.sname value.id, orphanWarn)
    else if spec.isDataset then
      Except.ok (.datasetB value.id, orphanWarn)
    else
      Except.ok (.groupB value.id, orphanWarn)
  else if truthySource value.container_source then
    if value.container_source ≠ parentContainer.container_source ∨
        value.parentId ≠ some parentContainer.id then
      Except.ok (.linkB spec.sname value.id, orphanWarn)
    else
      Except.ok (.skippedB, orphanWarn)
  else
    Except.error ("Found unmodified Container with no source - " ++ value.name ++
      " with parent " ++ parentContainer.name)

/-- The per-container state consulted and mutated by BuildManager.build: the
modified flag and the write-once container_source. -/
structure BMContainer where
  modified : Bool
  source : Option String
  deriving DecidableEq, Repr

/-- The state threaded through BuildManager.build: the containers keyed by
identity, the cache from container identity to builder identity
(BuildManager.__builders, keyed by id()), and the next fresh builder identity. -/
structure BMState where
  conts : List (Nat × BMContainer)
  builders : List (Nat × Nat)
  nextBldr : Nat
  deriving DecidableEq, Repr

/-- Overwrite-in-place update of an association list, as assignment into a Python
dict: an existing key keeps its position, a new key is appended. -/
def updAssoc {β : Type} (m : List (Nat × β)) (k : Nat) (v : β) : List (Nat × β) :=
  match m with
  | [] => [(k, v)]
  | (k0, v0) :: rest => if k0 = k then (k, v) :: rest else (k0, v0) :: updAssoc rest k v

/-- BuildManager.build (map.py 144-166). On a cache miss the container_source
write-once rule is enforced (an unset source is set to the given source, a set
source must equal the given one or a ValueError is raised), then the TypeMap
builds a fresh builder (abstracted as allocating the next builder identity) and
the result is cached via prebuilt. On a cache hit the cached builder is returned;
when the container is modified the TypeMap rebuilds in place on the cached
GroupBuilder, whose identity is unchanged. Containers outside the modelled state
report a model error. -/
def bmBuild (st : BMState) (cid : Nat) (source : Option String) :
    Except String (Nat × BMState) :=
  match st.builders.lookup cid with
  | none =>
    match st.conts.lookup cid with
    | none => Except.error "container not in model state"
    | some c =>
      match c.source with
      | none =>
        let st1 : BMState :=
          { st with conts := updAssoc st.conts cid { c with source := source } }
        Except.ok (st1.nextBldr,
          { st1 with builders := updAssoc st1.builders cid st1.nextBldr,
                     nextBldr := st1.nextBldr + 1 })
      | some s0 =>
        if some s0 ≠ source then
          Except.error "Can't change container_source once set"
        else
          Except.ok (st.nextBldr,
            { st with builders := updAssoc st.builders cid st.nextBldr,
                      nextBldr := st.nextBldr + 1 })
  | some b =>
    match st.conts.lookup cid with
    | none => Except.error "container not in model state"
    | some _ => Except.ok (b, st)

/-- The four fields Proxy equality compares (map.py 78-82): source, location,
namespace and data_type, as computed by BuildManager.get_proxy. -/
structure ProxyKey where
  source : Option String
  location : String
  namespaceName : String
  data_type : String
  deriving DecidableEq, Repr

/-- A candidate Container accumulated on a Proxy, carrying its identity and the
ProxyKey that BuildManager.get_proxy computes for it (container_source, the
slash-joined name stack, namespace and data_type). -/
structure Candidate where
  id : Nat
  key : ProxyKey
  deriving DecidableEq, Repr

/-- A Proxy: its own key and the accumulated candidate list, in insertion order
(Proxy.add_candidate appends). -/
structure ProxyM where
  key : ProxyKey
  candidates : List Candidate
  deriving DecidableEq, Repr

/-- Proxy.matches (map.py 61-65): the candidate's computed proxy is compared
fieldwise with self via Proxy.__eq__. -/
def proxyMatches (p : ProxyM) (c : Candidate) : Bool := c.key = p.key

/-- Proxy.resolve (map.py 72-76): iterate the accumulated candidates and return
the first one that matches; None when none matches. -/
def ProxyM.resolve (p : ProxyM) : Option Candidate :=
  p.candidates.find? (fun c => proxyMatches p c)

/-- Modelled from the spec: Builder.set_attribute on string-valued attributes, for
the two neutral attributes TypeMap.build stamps (builders.py is not under src/);
the attributes form a Map from string to value, so the entry is overwritten in
place or appended. -/
def setAttrStr (attrs : List (String × String)) (k v : String) : List (String × String) :=
  match attrs with
  | [] => [(k, v)]
  | (k0, v0) :: rest => if k0 = k then (k, v) :: rest else (k0, v0) :: setAttrStr rest k v

/-- The tail of TypeMap.build (map.py 1543-1546): after the mapper has produced the
builder (whose string attributes are mapperBuilt), the container's registered
namespace and data_type are stamped as the attribute "namespace" and the
attribute named by the spec layer's type_key. -/
def typeMapBuildStamp (mapperBuilt : List (String × String))
    (namespaceName data_type type_key : String) : List (String × String) :=
  setAttrStr (setAttrStr mapperBuilt "namespace" namespaceName) type_key data_type

/-- The four mapping tables ObjectMapper.__init__ maintains (map.py 523-526), with
spec nodes identified by Nat. -/
structure MapperMaps where
  spec2attr : List (Nat × String)
  attr2spec : List (String × Nat)
  spec2carg : List (Nat × String)
  carg2spec : List (String × Nat)
  deriving DecidableEq, Repr

/-- Overwrite-in-place update of a string-keyed association list, as assignment
into a Python dict. -/
def updAssocS {β : Type} (m : List (String × β)) (k : String) (v : β) : List (String × β) :=
  match m with
  | [] => [(k, v)]
  | (k0, v0) :: rest => if k0 = k then (k, v) :: rest else (k0, v0) :: updAssocS rest k v

/-- ObjectMapper.map_attr (map.py 602-612): record the spec in spec2attr and
attr2spec. -/
def map_attr (m : MapperMaps) (attr_name : String) (specId : Nat) : MapperMaps :=
  { m with spec2attr := updAssoc m.spec2attr specId attr_name,
           attr2spec := updAssocS m.attr2spec attr_name specId }

/-- ObjectMapper.map_const_arg (map.py 626-632): record the spec in spec2carg and
carg2spec. -/
def map_const_arg (m : MapperMaps) (const_arg : String) (specId : Nat) : MapperMaps :=
  { m with spec2carg := updAssoc m.spec2carg specId const_arg,
           carg2spec := updAssocS m.carg2spec const_arg specId }

/-- ObjectMapper.map_spec (map.py 641-647): map_const_arg then map_attr. -/
def map_spec (m : MapperMaps) (attr_carg : String) (specId : Nat) : MapperMaps :=
  map_attr (map_const_arg m attr_carg specId) attr_carg specId

/-- ObjectMapper.get_attr_spec (map.py 614-618): look the name up in attr2spec. -/
def get_attr_spec (m : MapperMaps) (attr_name : String) : Option Nat :=
  m.attr2spec.lookup attr_name

/-- ObjectMapper.get_carg_spec (map.py 620-624): the source indexes attr2spec, not
carg2spec. -/
def get_carg_spec (m : MapperMaps) (carg_name : String) : Option Nat :=
  m.attr2spec.lookup carg_name

/-- The kind of a spec node as the traversal distinguishes them: AttributeSpec,
DatasetSpec, GroupSpec (the two BaseStorageSpec kinds) and LinkSpec. -/
inductive SpecKind where
  | attributeK
  | datasetK
  | groupK
  | linkK
  deriving DecidableEq, Repr

/-- A spec node for the get_attr_names walk: kind, declared name, data_type_def,
data_type_inc, is_many flag, and the four child lists (attributes, datasets,
groups, links; only the kinds that have them use them). -/
inductive SpecTree where
  | node (kind : SpecKind) (name : Option String) (dtdef : Option String)
      (dtinc : Option String) (many : Bool)
      (attributes : List SpecTree) (datasets : List SpecTree)
      (groups : List SpecTree) (links : List SpecTree)

/-- The first substitution of convert_dt_name (map.py 550): the pattern matches any
character followed by an uppercase letter and a nonempty greedy run of lowercase
letters, and an underscore is inserted after the first character; scanning
resumes after the match, as re.sub replaces non-overlapping matches left to
right. -/
def sub1 (cs : List Char) : List Char :=
  match cs with
  | [] => []
  | [c] => [c]
  | c :: d :: rest =>
    if d.isUpper && (match rest with | e :: _ => e.isLower | [] => false) then
      c :: '_' :: d :: (rest.takeWhile Char.isLower ++ sub1 (rest.dropWhile Char.isLower))
    else
      c :: sub1 (d :: rest)
termination_by cs.length
decreasing_by
  · simp only [List.length_cons]
    have h : ∀ (l : List Char), (l.dropWhile Char.isLower).length ≤ l.length := by
      intro l
      induction l with
      | nil => simp [List.dropWhile]
      | cons a l ih =>
        simp only [List.dropWhile]
        cases Char.isLower a
        · simp
        · simpa using Nat.le_succ_of_le ih
    exact Nat.lt_succ_of_lt (Nat.lt_succ_of_le (h rest))
  · simp

/-- The second substitution of convert_dt_name (map.py 551): an underscore is
inserted between a lowercase letter or digit and a following uppercase letter. -/
def sub2 : List Char → List Char
  | [] => []
  | [c] => [c]
  | c :: d :: rest =>
    if (c.isLower || c.isDigit) && d.isUpper then
      c :: '_' :: sub2 (d :: rest)
    else
      c :: sub2 (d :: rest)

/-- ObjectMapper.convert_dt_name (map.py 539-554): take data_type_def, else
data_type_inc, else raise; snake-case it by the two substitutions and
lowercasing; append "s" when the spec is_many and the name does not already end
in "s" (indexing the last character of an empty name raises). -/
def convert_dt_name (s : SpecTree) : Except String String :=
  match s with
  | .node _ _ dtdef dtinc many _ _ _ _ =>
    let base : Option String :=
      match dtdef with
      | some n => some n
      | none => dtinc
    match base with
    | none => Except.error "found spec without name or data_type"
    | some nm =>
      let snake := ((sub2 (sub1 nm.toList)).map Char.toLower).asString
      if snake = "" then Except.error "IndexError: string index out of range"
      else if snake.back ≠ 's' ∧ many then Except.ok (snake ++ "s")
      else Except.ok snake

/-- Overwrite-in-place update of the all_names dict of the walk: assignment into a
Python dict keeps an existing key's position and appends a new key. -/
def dictInsertST (m : List (String × SpecTree)) (k : String) (v : SpecTree) :
    List (String × SpecTree) :=
  match m with
  | [] => [(k, v)]
  | (k0, v0) :: rest => if k0 = k then (k, v) :: rest else (k0, v0) :: dictInsertST rest k v

/-- Membership of a key in the all_names dict. -/
def dictHasKey (m : List (String × SpecTree)) (k : String) : Bool :=
  (m.lookup k).isSome

/-- The head of ObjectMapper.__get_fields (map.py 557-564): the node's name (its
declared name, else convert_dt_name), pushed on the name stack; if the name is
already a key of all_names the key becomes the underscore-joined stack; the node
is then recorded under the key. Returns the grown stack and updated dict. -/
def recordName (st : List String × List (String × SpecTree)) (s : SpecTree) :
    Except String (List String × List (String × SpecTree)) :=
  match s with
  | .node _ nm _ _ _ _ _ _ _ => do
    let name0 ← (match nm with
                 | some n => Except.ok n
                 | none => convert_dt_name s)
    let stack := st.1 ++ [name0]
    let key := if dictHasKey st.2 name0 then String.intercalate "_" stack else name0
    Except.ok (stack, dictInsertST st.2 key s)

mutual

/-- ObjectMapper.__get_fields (map.py 556-578): record the node's name, then — for
a BaseStorageSpec node — return immediately when the node carries data_type_def
or data_type_inc (the early return skips the final name_stack.pop, leaving the
pushed name on the stack), else walk the attributes and, for a GroupSpec, the
datasets, then groups, then links, and pop the last stack entry at the end. -/
def getFields (st : List String × List (String × SpecTree)) (s : SpecTree) :
    Except String (List String × List (String × SpecTree)) :=
  match s with
  | .node k _ dtdef dtinc _ atts dsets grps lnks => do
    let r ← recordName st s
    match k with
    | .datasetK =>
      if dtdef ≠ none ∨ dtinc ≠ none then Except.ok r
      else do
        let r2 ← getFieldsList r atts
        Except.ok (r2.1.dropLast, r2.2)
    | .groupK =>
      if dtdef ≠ none ∨ dtinc ≠ none then Except.ok r
      else do
        let r2 ← getFieldsList r atts
        let r3 ← getFieldsList r2 dsets
        let r4 ← getFieldsList r3 grps
        let r5 ← getFieldsList r4 lnks
        Except.ok (r5.1.dropLast, r5.2)
    | _ => Except.ok (st.1, r.2)

/-- A for-loop over a child list, threading the (stack, names) state through
__get_fields. -/
def getFieldsList (st : List String × List (String × SpecTree)) :
    List SpecTree → Except String (List String × List (String × SpecTree))
  | [] => Except.ok st
  | s :: rest => do
    let st2 ← getFields st s
    getFieldsList st2 rest

end

/-- The top-level loops of get_attr_names (map.py 586-594): each top-level subspec
is walked with a fresh empty name stack, the names dict being shared. -/
def getTopLevel (nm : List (String × SpecTree)) :
    List SpecTree → Except String (List (String × SpecTree))
  | [] => Except.ok nm
  | s :: rest => do
    let r ← getFields ([], nm) s
    getTopLevel r.2 rest

/-- ObjectMapper.get_attr_names (map.py 580-595): walk the top spec's attributes
and, when the top spec is a GroupSpec, its groups, then datasets, then links. -/
def get_attr_names (spec : SpecTree) : Except String (List (String × SpecTree)) :=
  match spec with
  | .node k _ _ _ _ atts dsets grps lnks => do
    let n1 ← getTopLevel [] atts
    match k with
    | .groupK => do
      let n2 ← getTopLevel n1 grps
      let n3 ← getTopLevel n2 dsets
      getTopLevel n3 lnks
    | _ => Except.ok n1

/-- The ordered list of attribute names (the keys of the all_names dict)
collected by get_attr_names. -/
def attrNameKeys (spec : SpecTree) : Except String (List String) :=
  (get_attr_names spec).map (fun l => l.map Prod.fst)

/-- A named untyped dataset sub-spec used by the traversal-order example. -/
def c7dataset : SpecTree := .node .datasetK (some "d") none none false [] [] [] []

/-- A named untyped group sub-spec used by the traversal-order example. -/
def c7group : SpecTree := .node .groupK (some "h") none none false [] [] [] []

/-- An untyped group named g containing the dataset d and the group h. -/
def c7sub : SpecTree := .node .groupK (some "g") none none false [] [c7dataset] [c7group] []

/-- A top-level typed GroupSpec whose only child is the untyped group g. -/
def c7top : SpecTree := .node .groupK none (some "Top") none false [] [] [c7sub] []

/-- Looking up the key just written by setAttrStr yields the written value. -/
theorem lookup_setAttrStr_self (m : List (String × String)) (k v : String) :
    (setAttrStr m k v).lookup k = some v := by
  induction m with
  | nil => simp [setAttrStr, List.lookup]
  | cons p rest ih =>
    obtain ⟨k0, v0⟩ := p
    by_cases h : k0 = k
    · simp [setAttrStr, h, List.lookup]
    · have hb : (k == k0) = false := beq_eq_false_iff_ne.mpr (Ne.symm h)
      simp [setAttrStr, h, List.lookup, hb, ih]

/-- Looking up a different key after setAttrStr is unchanged. -/
theorem lookup_setAttrStr_ne (m : List (String × String)) (k v k2 : String)
    (h : k2 ≠ k) : (setAttrStr m k v).lookup k2 = m.lookup k2 := by
  have hb : (k2 == k) = false := beq_eq_false_iff_ne.mpr h
  induction m with
  | nil => simp [setAttrStr, List.lookup, hb]
  | cons p rest ih =>
    obtain ⟨k0, v0⟩ := p
    by_cases h0 : k0 = k
    · subst h0
      simp [setAttrStr, List.lookup, hb]
    · simp [setAttrStr, h0, List.lookup, ih]

/-- Looking up the key just written by updAssoc yields the written value. -/
theorem lookup_updAssoc_self {β : Type} (m : List (Nat × β)) (k : Nat) (v : β) :
    (updAssoc m k v).lookup k = some v := by
  induction m with
  | nil => simp [updAssoc, List.lookup]
  | cons p rest ih =>
    obtain ⟨k0, v0⟩ := p
    by_cases h : k0 = k
    · simp [updAssoc, h, List.lookup]
    · have hb : (k == k0) = false := beq_eq_false_iff_ne.mpr (Ne.symm h)
      simp [updAssoc, h, List.lookup, hb, ih]

/-- Claim C2 counterexample: the claim expects convert_dtype to fail with a dtype
mismatch when a Python float 5.0 meets spec dtype uint64, but the code succeeds,
returning uint64(5): np.dtype(float).itemsize = 8 is not larger than uint64's 8,
so __resolve_dtype returns the specified dtype without any family check. -/
theorem convert_dtype_uint64_float_cex :
    convert_dtype (some (.prim "uint64")) (.pfloat 5) =
      Except.ok (.npScalar .uint64 5, .dnp .uint64) ∧
    isErr (convert_dtype (some (.prim "uint64")) (.pfloat 5)) = false :=
  ⟨rfl, rfl⟩

/-- Claim C2 (amended): against spec dtype uint64, a Python int 5 is converted to
numpy uint64(5); a Python float 5.0 is likewise converted to uint64(5) without
error, because __resolve_dtype returns the specified dtype whenever the given
dtype's byte width is no larger than the specified one, with no same-family
check in that branch. -/
theorem convert_dtype_uint64_scalar :
    convert_dtype (some (.prim "uint64")) (.pint 5) =
      Except.ok (.npScalar .uint64 5, .dnp .uint64) ∧
    convert_dtype (some (.prim "uint64")) (.pfloat 5) =
      Except.ok (.npScalar .uint64 5, .dnp .uint64) ∧
    resolve_dtype .float64 .uint64 = Except.ok .uint64 :=
  ⟨rfl, rfl, rfl⟩

/-- Claim C10: for every recognized primitive dtype of the closed alphabet,
convert_dtype on an empty list or empty tuple fails rather than returning an
empty converted sequence: the sequence branch reads the reported dtype from the
last element processed, which does not exist for an empty input. -/
theorem convert_dtype_empty_sequence_fails :
    ∀ s ∈ dtypeKeys,
      isErr (convert_dtype (some (.prim s)) (.plist [])) = true ∧
      isErr (convert_dtype (some (.prim s)) (.ptuple [])) = true := by
  decide

/-- Claim C10 witness: the dtype uint64 is in the closed alphabet and empty
sequences fail against it. -/
theorem convert_dtype_empty_sequence_fails_witness :
    "uint64" ∈ dtypeKeys ∧
      (isErr (convert_dtype (some (.prim "uint64")) (.plist [])) = true ∧
       isErr (convert_dtype (some (.prim "uint64")) (.ptuple [])) = true) :=
  ⟨by decide, convert_dtype_empty_sequence_fails "uint64" (by decide)⟩

/-- Claim C6 counterexample: a required AttributeSpec whose dtype is a RefSpec and
whose resolved value is absent raises a ValueError (map.py 859-866) instead of
emitting MissingRequiredWarning and skipping as the claim states. -/
theorem add_attributes_refspec_cex :
    add_attributes "f" [⟨"ref_attr", some (.refSpec "Foo" "object"), true, none, none⟩]
        (fun _ => none) =
      Except.error "object of data_type Foo not found on container" ∧
    isErr (add_attributes "f"
        [⟨"ref_attr", some (.refSpec "Foo" "object"), true, none, none⟩]
        (fun _ => none)) = true :=
  ⟨rfl, rfl⟩

/-- Claim C6 (amended): for an AttributeSpec whose dtype is not a RefSpec and whose
resolved value is absent, the attribute is skipped and the resulting builder
carries no such attribute — with a MissingRequiredWarning recorded when the spec
is required and silently when it is optional, and no fatal error; when the dtype
is a RefSpec and the resolved value is absent, a ValueError is raised instead. -/
theorem add_attributes_missing (bn : String) (spec : AttrSpecL)
    (getAttr : String → Option PyVal)
    (habs : resolveAttrValue spec getAttr = none) :
    ((∀ t rt, spec.dtype ≠ some (.refSpec t rt)) →
      add_attributes bn [spec] getAttr =
        Except.ok ([], if spec.required then
          ["MissingRequiredWarning: attribute " ++ spec.name ++ " for " ++ bn]
        else [])) ∧
    (∀ t rt, spec.dtype = some (.refSpec t rt) →
      add_attributes bn [spec] getAttr =
        Except.error ("object of data_type " ++ t ++ " not found on container")) := by
  constructor
  · intro hnr
    match hd : spec.dtype with
    | some (.refSpec t rt) => exact absurd hd (hnr t rt)
    | none =>
      simp only [add_attributes, List.foldlM, addAttribute, habs, hd]
      split <;> simp [*]
    | some (.prim s) =>
      simp only [add_attributes, List.foldlM, addAttribute, habs, hd]
      split <;> simp [*]
  · intro t rt hd
    simp only [add_attributes, List.foldlM, addAttribute, habs, hd]
    rfl

/-- Claim C6 witness: a required int32 attribute resolving to no value is skipped
with exactly one MissingRequiredWarning and no attribute entry. -/
theorem add_attributes_missing_witness :
    resolveAttrValue ⟨"bar", some (.prim "int32"), true, none, none⟩ (fun _ => none) = none ∧
    add_attributes "f" [⟨"bar", some (.prim "int32"), true, none, none⟩] (fun _ => none) =
      Except.ok ([], if (true : Bool) then
        ["MissingRequiredWarning: attribute " ++ "bar" ++ " for " ++ "f"] else []) := by
  refine ⟨rfl, ?_⟩
  exact (add_attributes_missing "f" ⟨"bar", some (.prim "int32"), true, none, none⟩
    (fun _ => none) rfl).1 (by intro t rt h; simp at h)

/-- Claim C8: every builder returned by TypeMap.build for a registered typed
container carries the attribute "namespace" set to the container's namespace and
the attribute named by the spec layer's type_key set to its data_type, whatever
attributes the mapper itself produced, provided the type_key is not the literal
name "namespace". -/
theorem typeMap_build_stamps (mapperBuilt : List (String × String))
    (ns dt tk : String) (h : tk ≠ "namespace") :
    (typeMapBuildStamp mapperBuilt ns dt tk).lookup "namespace" = some ns ∧
    (typeMapBuildStamp mapperBuilt ns dt tk).lookup tk = some dt := by
  unfold typeMapBuildStamp
  constructor
  · rw [lookup_setAttrStr_ne _ tk dt "namespace" (Ne.symm h)]
    exact lookup_setAttrStr_self _ _ _
  · exact lookup_setAttrStr_self _ _ _

/-- Claim C8 witness: stamping with type_key neurodata_type on a mapper-built
attribute list. -/
theorem typeMap_build_stamps_witness :
    ("neurodata_type" : String) ≠ "namespace" ∧
    ((typeMapBuildStamp [("foo", "1")] "core" "Foo" "neurodata_type").lookup "namespace" =
        some "core" ∧
     (typeMapBuildStamp [("foo", "1")] "core" "Foo" "neurodata_type").lookup "neurodata_type" =
        some "Foo") :=
  ⟨by decide, typeMap_build_stamps [("foo", "1")] "core" "Foo" "neurodata_type" (by decide)⟩

/-- Claim C9: get_carg_spec returns the same result as get_attr_spec for every name
(both index the attr-to-spec table), and consequently a spec mapped only via
map_const_arg under a name not present in the attr-to-spec table is not returned
by get_carg_spec for that name. -/
theorem get_carg_spec_uses_attr_table :
    (∀ m n, get_carg_spec m n = get_attr_spec m n) ∧
    (∀ m n sid, m.attr2spec.lookup n = none →
      get_carg_spec (map_const_arg m n sid) n = none) := by
  constructor
  · intro m n
    rfl
  · intro m n sid h
    simpa [get_carg_spec, map_const_arg] using h

/-- Claim C9 witness: on the empty mapper table, mapping spec 5 only as constructor
argument x leaves get_carg_spec x empty. -/
theorem get_carg_spec_uses_attr_table_witness :
    (MapperMaps.mk [] [] [] []).attr2spec.lookup "x" = none ∧
    get_carg_spec (map_const_arg (MapperMaps.mk [] [] [] []) "x" 5) "x" = none :=
  ⟨rfl, (get_carg_spec_uses_attr_table).2 (MapperMaps.mk [] [] [] []) "x" 5 rfl⟩

/-- Claim C1 counterexample: an unmodified child whose parent is the enclosing
container and whose container_source equals the parent's, under a non-Link
GroupSpec, is attached neither embedded nor as a LinkBuilder — __add_containers
falls through both attachment branches (map.py 994-998) — although the claim
requires it to be embedded. -/
theorem add_containers_claim_cex :
    add_containers (.groupS (some "q"))
        ⟨1, "q", some 0, false, some "f"⟩ ⟨0, "p", none, false, some "f"⟩ =
      Except.ok (.skippedB, false) ∧
    AttachOutcome.isEmbedded .skippedB = false ∧
    AttachOutcome.skippedB ≠ AttachOutcome.linkB (some "q") 1 :=
  ⟨rfl, rfl, by decide⟩

/-- Claim C1 (amended): for a modified child Container v under parent P built with
sub-spec s, if v's parent is P and s is not a LinkSpec, v's builder is embedded
(set_dataset for a DatasetSpec, set_group otherwise), and in every other
modified case it is attached as a LinkBuilder named s.name. For an unmodified
child with a truthy container_source, a LinkBuilder named s.name is attached
when its container_source differs from P's or its parent is not P, and nothing
is attached otherwise; an unmodified child without container_source raises a
ValueError. -/
theorem add_containers_ownership (s : ChildSpec) (v p : ChildContainer) :
    (v.modified = true →
      (v.parentId = some p.id ∧ s.isLink = false →
        add_containers s v p =
          Except.ok (if s.isDataset then .datasetB v.id else .groupB v.id,
            v.parentId.isNone)) ∧
      (s.isLink = true ∨ v.parentId ≠ some p.id →
        add_containers s v p = Except.ok (.linkB s.sname v.id, v.parentId.isNone))) ∧
    (v.modified = false → truthySource v.container_source = true →
      (v.container_source ≠ p.container_source ∨ v.parentId ≠ some p.id →
        add_containers s v p = Except.ok (.linkB s.sname v.id, v.parentId.isNone)) ∧
      (v.container_source = p.container_source ∧ v.parentId = some p.id →
        add_containers s v p = Except.ok (.skippedB, v.parentId.isNone))) ∧
    (v.modified = false → truthySource v.container_source = false →
      isErr (add_containers s v p) = true) := by
  refine ⟨?_, ?_, ?_⟩
  · intro hm
    constructor
    · rintro ⟨hp, hl⟩
      simp only [add_containers, hm, hp, hl]
      simp
      split <;> simp [*]
    · intro h
      rcases h with h | h <;> simp [add_containers, hm, h]
  · intro hm ht
    constructor
    · intro h
      rcases h with h | h <;> simp [add_containers, hm, ht, h]
    · rintro ⟨hs, hp⟩
      have ht2 : truthySource p.container_source = true := hs ▸ ht
      simp [add_containers, hm, ht2, hs, hp]
  · intro hm ht
    simp [add_containers, hm, ht, isErr]

/-- Claim C1 witness: a modified child group whose parent is the enclosing
container is embedded with set_group. -/
theorem add_containers_ownership_witness :
    add_containers (.groupS (some "q"))
        ⟨1, "q", some 0, true, none⟩ ⟨0, "p", none, false, some "f"⟩ =
      Except.ok (.groupB 1, false) := by
  have h := ((add_containers_ownership (.groupS (some "q"))
      ⟨1, "q", some 0, true, none⟩ ⟨0, "p", none, false, some "f"⟩).1 rfl).1 ⟨rfl, rfl⟩
  simpa [ChildSpec.isDataset] using h

/-- Claim C3 counterexample: after a first successful build of container 0 with
source a, a second build with the different source b succeeds and returns the
cached builder instead of failing — the container_source write-once check
(map.py 154-158) runs only on a cache miss. -/
theorem bmBuild_source_recheck_cex :
    bmBuild ⟨[(0, ⟨false, none⟩)], [], 0⟩ 0 (some "a") =
      Except.ok (0, ⟨[(0, ⟨false, some "a"⟩)], [(0, 0)], 1⟩) ∧
    bmBuild ⟨[(0, ⟨false, some "a"⟩)], [(0, 0)], 1⟩ 0 (some "b") =
      Except.ok (0, ⟨[(0, ⟨false, some "a"⟩)], [(0, 0)], 1⟩) ∧
    isErr (bmBuild ⟨[(0, ⟨false, some "a"⟩)], [(0, 0)], 1⟩ 0 (some "b")) = false :=
  ⟨rfl, rfl, rfl⟩

/-- Claim C3 (amended): the source-immutability rule applies only on a cache miss:
when the container has no cached builder and its container_source is set and
differs from the given source, build fails with the source-immutability
ValueError; once a builder is cached for the container, every later build
returns the cached builder with no source check at all. -/
theorem bmBuild_source_immutability (st : BMState) (cid : Nat) (c : BMContainer)
    (s0 : String) (src : Option String) :
    (st.builders.lookup cid = none → st.conts.lookup cid = some c →
      c.source = some s0 → some s0 ≠ src →
      bmBuild st cid src = Except.error "Can't change container_source once set") ∧
    (∀ b, st.builders.lookup cid = some b → st.conts.lookup cid = some c →
      bmBuild st cid src = Except.ok (b, st)) := by
  constructor
  · intro h1 h2 h3 h4
    simp [bmBuild, h1, h2, h3, h4]
  · intro b h1 h2
    simp [bmBuild, h1, h2]

/-- Claim C3 witness: on a cache miss with container_source a, building with
source b fails; instantiated from the amended theorem. -/
theorem bmBuild_source_immutability_witness :
    (BMState.mk [(0, ⟨false, some "a"⟩)] [] 0).builders.lookup 0 = none ∧
    (BMState.mk [(0, ⟨false, some "a"⟩)] [] 0).conts.lookup 0 =
      some ⟨false, some "a"⟩ ∧
    (BMContainer.mk false (some "a")).source = some "a" ∧
    (some "a" : Option String) ≠ some "b" ∧
    bmBuild (BMState.mk [(0, ⟨false, some "a"⟩)] [] 0) 0 (some "b") =
      Except.error "Can't change container_source once set" := by
  refine ⟨rfl, rfl, rfl, by decide, ?_⟩
  exact (bmBuild_source_immutability (BMState.mk [(0, ⟨false, some "a"⟩)] [] 0) 0
    ⟨false, some "a"⟩ "a" (some "b")).1 rfl rfl rfl (by decide)

/-- Claim C4: identity preservation — after a successful build of a container, a
repeated build through the same manager returns the identical cached builder and
leaves the state unchanged; while modified stays false no rebuild happens (and
even a modified rebuild happens in place on the same GroupBuilder, preserving
identity). -/
theorem bmBuild_identity_preservation (st st2 : BMState) (cid b : Nat)
    (src : Option String) (c : BMContainer)
    (h1 : bmBuild st cid src = Except.ok (b, st2))
    (h2 : st2.conts.lookup cid = some c) :
    bmBuild st2 cid src = Except.ok (b, st2) := by
  have hb : st2.builders.lookup cid = some b := by
    unfold bmBuild at h1
    split at h1
    · split at h1
      · exact absurd h1 (by simp)
      · split at h1
        · simp only [Except.ok.injEq, Prod.mk.injEq] at h1
          obtain ⟨hb1, hst⟩ := h1
          subst hst
          simpa using (hb1 ▸ lookup_updAssoc_self _ cid _)
        · split at h1
          · exact absurd h1 (by simp)
          · simp only [Except.ok.injEq, Prod.mk.injEq] at h1
            obtain ⟨hb1, hst⟩ := h1
            subst hst
            simpa using (hb1 ▸ lookup_updAssoc_self _ cid _)
    · rename_i b0 heq
      split at h1
      · exact absurd h1 (by simp)
      · simp only [Except.ok.injEq, Prod.mk.injEq] at h1
        obtain ⟨hb1, hst⟩ := h1
        subst hst
        exact hb1 ▸ heq
  simp [bmBuild, hb, h2]

/-- Claim C4 witness: building container 0 twice with the same manager state
returns the same builder 0 and the same state. -/
theorem bmBuild_identity_preservation_witness :
    bmBuild ⟨[(0, ⟨false, none⟩)], [], 0⟩ 0 (some "a") =
      Except.ok (0, ⟨[(0, ⟨false, some "a"⟩)], [(0, 0)], 1⟩) ∧
    (BMState.mk [(0, ⟨false, some "a"⟩)] [(0, 0)] 1).conts.lookup 0 =
      some ⟨false, some "a"⟩ ∧
    bmBuild ⟨[(0, ⟨false, some "a"⟩)], [(0, 0)], 1⟩ 0 (some "a") =
      Except.ok (0, ⟨[(0, ⟨false, some "a"⟩)], [(0, 0)], 1⟩) := by
  refine ⟨rfl, rfl, ?_⟩
  exact bmBuild_identity_preservation ⟨[(0, ⟨false, none⟩)], [], 0⟩
    ⟨[(0, ⟨false, some "a"⟩)], [(0, 0)], 1⟩ 0 0 (some "a") ⟨false, some "a"⟩ rfl rfl

/-- Claim C5 counterexample: a Proxy with two candidates both matching its
(source, location, namespace, data_type) resolves to the first matching
candidate, not to none as the claim requires for multiple matches. -/
theorem proxy_resolve_multiple_cex :
    proxyMatches ⟨⟨some "s", "loc", "ns", "T"⟩,
        [⟨0, ⟨some "s", "loc", "ns", "T"⟩⟩, ⟨1, ⟨some "s", "loc", "ns", "T"⟩⟩]⟩
      ⟨0, ⟨some "s", "loc", "ns", "T"⟩⟩ = true ∧
    proxyMatches ⟨⟨some "s", "loc", "ns", "T"⟩,
        [⟨0, ⟨some "s", "loc", "ns", "T"⟩⟩, ⟨1, ⟨some "s", "loc", "ns", "T"⟩⟩]⟩
      ⟨1, ⟨some "s", "loc", "ns", "T"⟩⟩ = true ∧
    ProxyM.resolve ⟨⟨some "s", "loc", "ns", "T"⟩,
        [⟨0, ⟨some "s", "loc", "ns", "T"⟩⟩, ⟨1, ⟨some "s", "loc", "ns", "T"⟩⟩]⟩ =
      some ⟨0, ⟨some "s", "loc", "ns", "T"⟩⟩ ∧
    ProxyM.resolve ⟨⟨some "s", "loc", "ns", "T"⟩,
        [⟨0, ⟨some "s", "loc", "ns", "T"⟩⟩, ⟨1, ⟨some "s", "loc", "ns", "T"⟩⟩]⟩ ≠
      none := by
  decide

/-- Binding a successful Except value applies the continuation. -/
theorem exceptBindOk {ε α β : Type} (a : α) (f : α → Except ε β) :
    (Except.ok a >>= f) = f a := rfl

/-- Binding a failed Except value keeps the error. -/
theorem exceptBindErr {ε α β : Type} (e : ε) (f : α → Except ε β) :
    ((Except.error e : Except ε α) >>= f) = Except.error e := rfl

/-- Listing helper: a find? over a list with a unique satisfying element returns
that element. -/
theorem find?_of_unique {α : Type} (q : α → Bool) (l : List α) (c : α)
    (hc : c ∈ l) (hq : q c = true)
    (huniq : ∀ d ∈ l, q d = true → d = c) : l.find? q = some c := by
  induction l with
  | nil => cases hc
  | cons a rest ih =>
    by_cases ha : q a = true
    · have hac : a = c := huniq a (List.mem_cons_self a rest) ha
      subst hac
      simp [List.find?, ha]
    · have hb : q a = false := by simpa using ha
      rcases List.mem_cons.mp hc with h | h
      · subst h
        exact absurd hq ha
      · simp only [List.find?, hb]
        exact ih h (fun d hd hqd => huniq d (List.mem_cons_of_mem _ hd) hqd)

/-- Claim C5 (amended): Proxy.resolve returns the first accumulated candidate
whose (source, location, namespace, data_type) equals the Proxy's own, and none
exactly when no candidate matches; in particular when exactly one candidate
matches, that candidate is returned. When several candidates match, the first
one is returned rather than none. -/
theorem proxy_resolve_first_match (p : ProxyM) :
    (ProxyM.resolve p = none ↔ ∀ c ∈ p.candidates, proxyMatches p c = false) ∧
    (∀ c, ProxyM.resolve p = some c → c ∈ p.candidates ∧ proxyMatches p c = true) ∧
    (∀ c ∈ p.candidates, proxyMatches p c = true →
      (∀ d ∈ p.candidates, proxyMatches p d = true → d = c) →
      ProxyM.resolve p = some c) := by
  refine ⟨?_, ?_, ?_⟩
  · simp only [ProxyM.resolve, List.find?_eq_none, Bool.not_eq_true]
  · intro c h
    exact ⟨List.mem_of_find?_eq_some h, List.find?_some h⟩
  · intro c hc hq huniq
    exact find?_of_unique _ _ _ hc hq huniq

/-- Claim C5 witness: a Proxy with exactly one matching candidate resolves to it. -/
theorem proxy_resolve_first_match_witness :
    (⟨0, ⟨some "s", "loc", "ns", "T"⟩⟩ : Candidate) ∈
      [(⟨0, ⟨some "s", "loc", "ns", "T"⟩⟩ : Candidate)] ∧
    proxyMatches ⟨⟨some "s", "loc", "ns", "T"⟩, [⟨0, ⟨some "s", "loc", "ns", "T"⟩⟩]⟩
      ⟨0, ⟨some "s", "loc", "ns", "T"⟩⟩ = true ∧
    ProxyM.resolve ⟨⟨some "s", "loc", "ns", "T"⟩, [⟨0, ⟨some "s", "loc", "ns", "T"⟩⟩]⟩ =
      some ⟨0, ⟨some "s", "loc", "ns", "T"⟩⟩ := by
  refine ⟨by decide, by decide, ?_⟩
  exact (proxy_resolve_first_match
    ⟨⟨some "s", "loc", "ns", "T"⟩, [⟨0, ⟨some "s", "loc", "ns", "T"⟩⟩]⟩).2.2
    ⟨0, ⟨some "s", "loc", "ns", "T"⟩⟩ (by decide) (by decide) (by decide)

/-- Claim C7 counterexample: in the example tree, the descended untyped group g
contains the dataset d and the group h; the walk records d before h — datasets
are visited before groups inside __get_fields (map.py 569-577) — while the
claimed order (attributes, groups, datasets, links at every descended node)
would record h before d. -/
theorem get_attr_names_order_cex :
    attrNameKeys c7top = Except.ok ["g", "d", "h"] ∧
    attrNameKeys c7top ≠ Except.ok ["g", "h", "d"] := by
  have h1 : attrNameKeys c7top = Except.ok ["g", "d", "h"] := rfl
  refine ⟨h1, ?_⟩
  rw [h1]
  intro h
  injection h with h2
  simp at h2

/-- Claim C7 (amended): a BaseStorageSpec sub-spec carrying data_type_def or
data_type_inc is recorded only as itself, with no descent into its children;
an untyped GroupSpec node that is descended into visits its children in the
order attributes, then datasets, then groups, then links. -/
theorem get_attr_names_walk :
    (∀ st k nm dtdef dtinc many atts dsets grps lnks,
      k = SpecKind.datasetK ∨ k = SpecKind.groupK →
      dtdef ≠ none ∨ dtinc ≠ none →
      getFields st (.node k nm dtdef dtinc many atts dsets grps lnks) =
        recordName st (.node k nm dtdef dtinc many atts dsets grps lnks)) ∧
    (∀ st nm many atts dsets grps lnks,
      getFields st (.node .groupK nm none none many atts dsets grps lnks) = do
        let r ← recordName st (.node .groupK nm none none many atts dsets grps lnks)
        let r2 ← getFieldsList r atts
        let r3 ← getFieldsList r2 dsets
        let r4 ← getFieldsList r3 grps
        let r5 ← getFieldsList r4 lnks
        Except.ok (r5.1.dropLast, r5.2)) := by
  constructor
  · intro st k nm dtdef dtinc many atts dsets grps lnks hk ht
    rcases hk with hk | hk <;> subst hk <;>
      rcases hr : recordName st (.node _ nm dtdef dtinc many atts dsets grps lnks)
        with e | r <;>
      simp [getFields, hr, ht, exceptBindOk, exceptBindErr]
  · intro st nm many atts dsets grps lnks
    rcases hr : recordName st (.node .groupK nm none none many atts dsets grps lnks)
      with e | r <;>
    simp [getFields, hr, exceptBindOk, exceptBindErr]

/-- Claim C7 witness: a typed group sub-spec with a dataset child is recorded
without descending into the child. -/
theorem get_attr_names_walk_witness :
    (SpecKind.groupK = SpecKind.datasetK ∨ SpecKind.groupK = SpecKind.groupK) ∧
    ((some "T" : Option String) ≠ none ∨ (none : Option String) ≠ none) ∧
    getFields ([], []) (.node .groupK (some "x") (some "T") none false [] [c7dataset] [] []) =
      recordName ([], []) (.node .groupK (some "x") (some "T") none false [] [c7dataset] [] []) := by
  refine ⟨Or.inr rfl, Or.inl (by simp), ?_⟩
  exact (get_attr_names_walk).1 ([], []) .groupK (some "x") (some "T") none false
    [] [c7dataset] [] [] (Or.inr rfl) (Or.inl (by simp))

end PynwbMap
